import Mathlib

/-!
Verification of the `image_downloader` repository (file `image_downloader.py`).

The development shallowly embeds the three Python functions of the source —
`safe_filename`, `get_extension_from_url` and `download_image_stream` — as
executable Lean functions.  Strings are modelled as Lean `String` (lists of
characters); the filesystem, the network response and the possible runtime
faults are passed explicitly as state/oracle values, so that one invocation of
the downloader is a pure function from its inputs and environment to a
`RunResult` (outcome, final filesystem, list of issued HTTP GET calls, and the
target paths it used).

Library functions used by the source (`pathlib.Path(...).name`,
`re.sub(r'[^A-Za-z0-9._-]', '_', ...)`, `urllib.parse.urlparse(...).path`,
`os.path.splitext`, `os.path.join`, `str.lower` restricted to ASCII) are
embedded by tracing their CPython semantics on the operations the source
performs.
-/

namespace ImageDl

/-- ASCII lowercasing of one character, as CPython `str.lower` acts on the
ASCII range (the only range exercised here). -/
def asciiLower (c : Char) : Char :=
  if 'A' ≤ c ∧ c ≤ 'Z' then Char.ofNat (c.toNat + 32) else c

/-- Characters kept unchanged by the source regex `[^A-Za-z0-9._-]` on line 13:
ASCII letters, digits, dot, underscore, hyphen. -/
def isSafeChar (c : Char) : Bool :=
  (('A' ≤ c ∧ c ≤ 'Z') ∨ ('a' ≤ c ∧ c ≤ 'z') ∨ ('0' ≤ c ∧ c ≤ '9')
    ∨ c = '.' ∨ c = '_' ∨ c = '-')

/-- One step of `re.sub(r'[^A-Za-z0-9._-]', '_', name)`: a character outside
the safe set is replaced by an underscore. -/
def sanitizeChar (c : Char) : Char :=
  if isSafeChar c then c else '_'

/-- Split a character list on `'/'` (the POSIX path separator), keeping empty
segments, as both `pathlib` and `str.split('/')` do. -/
def splitSlash (l : List Char) : List (List Char) :=
  l.foldr
    (fun c acc =>
      match acc with
      | s :: rest => if c = '/' then [] :: s :: rest else (c :: s) :: rest
      | [] => [[c]])
    [[]]

/-- CPython `pathlib.PurePosixPath(name).name`: the last path component, where
empty segments and single-dot segments are dropped (they do not appear in
`PurePosixPath.parts`); when no component remains the result is empty. -/
def pyPathName (l : List Char) : List Char :=
  (((splitSlash l).filter (fun seg => !seg.isEmpty && seg ≠ ['.'])).getLast?).getD []

/-- Source `safe_filename` (lines 9-13): keep only the final path component of
`name`, then replace every character outside `[A-Za-z0-9._-]` with `_`. -/
def safe_filename (name : String) : String :=
  ((pyPathName name.data).map sanitizeChar).asString

/-- Characters allowed after the first one in a URL scheme
(CPython `urllib.parse.scheme_chars`). -/
def isSchemeTailChar (c : Char) : Bool :=
  c.isAlpha || c.isDigit || c = '+' || c = '-' || c = '.'

/-- Scheme removal step of CPython `urlsplit`: when the text before the first
colon is a nonempty valid scheme (letter first, then scheme characters), drop
it together with the colon. -/
def afterScheme (l : List Char) : List Char :=
  let pre := l.takeWhile (fun c => c ≠ ':')
  if pre.length < l.length then
    match pre with
    | [] => l
    | c0 :: rest =>
      if c0.isAlpha && (c0 :: rest).all isSchemeTailChar then
        l.drop (pre.length + 1)
      else l
  else l

/-- Netloc removal step of CPython `urlsplit`: after a leading `//`, the
network location extends to the next `/`, `?` or `#`. -/
def afterNetloc (l : List Char) : List Char :=
  match l with
  | '/' :: '/' :: rest => rest.dropWhile (fun c => c ≠ '/' && c ≠ '?' && c ≠ '#')
  | _ => l

/-- Truncation at the first occurrence of a delimiter character, used for the
fragment (`#`) and query (`?`) splits of CPython `urlsplit`. -/
def upToChar (stop : Char) (l : List Char) : List Char :=
  l.takeWhile (fun c => c ≠ stop)

/-- Input normalisation of CPython `urlsplit`: strip leading WHATWG C0
controls and spaces (codepoints up to 0x20), then remove every tab, newline
and carriage return. -/
def preprocessUrl (l : List Char) : List Char :=
  (l.dropWhile (fun c => c.toNat ≤ 0x20)).filter
    (fun c => c ≠ '\t' ∧ c ≠ '\n' ∧ c ≠ '\r')

/-- The network-location part CPython `urlsplit` extracts (empty when the
text after the scheme does not start with `//`).  Expects the already
normalised URL text. -/
def netlocOf (l : List Char) : List Char :=
  match afterScheme l with
  | '/' :: '/' :: rest => rest.takeWhile (fun c => c ≠ '/' ∧ c ≠ '?' ∧ c ≠ '#')
  | _ => []

/-- Parameter removal step of CPython `urlparse` (`_splitparams`): drop
everything from the first `;` inside the final path segment. -/
def dropParams (l : List Char) : List Char :=
  let segRev := l.reverse.takeWhile (fun c => c ≠ '/')
  if segRev.reverse.contains ';' then
    l.take (l.length - segRev.length) ++ segRev.reverse.takeWhile (fun c => c ≠ ';')
  else l

/-- Path component of a URL, per CPython `urlparse(url).path`: normalise the
input text, strip the scheme, then the `//netloc`, then the fragment, then
the query, then the `;parameters` of the last segment.  The `ValueError`
checks `urlsplit` performs on the netloc alter no value on the paths where
they pass; they are modelled separately by `urlsplitCheck`. -/
def urlPathCL (l : List Char) : List Char :=
  dropParams (upToChar '?' (upToChar '#' (afterNetloc (afterScheme (preprocessUrl l)))))

/-- Split a character list on a separator character, keeping empty segments
(CPython `str.split(sep)` for a one-character separator). -/
def splitOnCharCL (sep : Char) (l : List Char) : List (List Char) :=
  l.foldr
    (fun c acc =>
      match acc with
      | s :: rest => if c = sep then [] :: s :: rest else (c :: s) :: rest
      | [] => [[c]])
    [[]]

/-- ASCII hexadecimal digit, the character class of CPython
`ipaddress._IPv6Constants._HEX_DIGITS` and of the IPvFuture pattern. -/
def isHexDigitAscii (c : Char) : Bool :=
  (('0' ≤ c ∧ c ≤ '9') ∨ ('a' ≤ c ∧ c ≤ 'f') ∨ ('A' ≤ c ∧ c ≤ 'F'))

/-- ASCII decimal digit. -/
def isAsciiDigit (c : Char) : Bool :=
  ('0' ≤ c ∧ c ≤ '9')

/-- Numeric value of an ASCII digit string. -/
def digitsVal (l : List Char) : Nat :=
  l.foldl (fun n c => n * 10 + (c.toNat - 48)) 0

/-- One dotted-quad octet per CPython `ipaddress.IPv4Address._parse_octet`:
one to three ASCII digits, no leading zero (except `0` itself), value at
most 255. -/
def isIPv4Octet (s : List Char) : Bool :=
  (!s.isEmpty) && s.length ≤ 3 && s.all isAsciiDigit
    && (s.length = 1 || s.head? ≠ some '0')
    && digitsVal s ≤ 255

/-- Valid IPv4 address text per CPython `ipaddress.IPv4Address`: exactly
four valid octets separated by dots. -/
def isIPv4Str (l : List Char) : Bool :=
  (splitOnCharCL '.' l).length = 4 && (splitOnCharCL '.' l).all isIPv4Octet

/-- One IPv6 hextet per CPython `ipaddress.IPv6Address._parse_hextet`: one
to four ASCII hexadecimal digits. -/
def hextetOk (s : List Char) : Bool :=
  (!s.isEmpty) && s.length ≤ 4 && s.all isHexDigitAscii

/-- Validity of the colon-separated body of an IPv6 address text, tracing
CPython `ipaddress.IPv6Address._ip_int_from_string`: split on `:`; at least
three raw parts; a final part containing a dot must be a valid IPv4 address
and stands for two hextets; at most nine parts; at most one empty middle
part (the `::` gap), with a leading or trailing empty part only next to the
gap; without a gap exactly eight nonempty hextets; the gap must cover at
least one hextet. -/
def ipv6CoreOk (addr : List Char) : Bool :=
  let rawParts := splitOnCharCL ':' addr
  if rawParts.length < 3 then false
  else
    match
      (match rawParts.getLast? with
       | some lastp =>
         if lastp.contains '.' then
           (if isIPv4Str lastp then some (rawParts.dropLast ++ [['0'], ['0']]) else none)
         else some rawParts
       | none => some rawParts) with
    | none => false
    | some parts =>
      if 9 < parts.length then false
      else
        let middles := (parts.drop 1).dropLast
        let nEmpty := (middles.filter (fun p => p.isEmpty)).length
        if 2 ≤ nEmpty then false
        else if nEmpty = 1 then
          let skipIdx := 1 + (middles.takeWhile (fun p => !p.isEmpty)).length
          let hi := if parts.head? = some ([] : List Char) then skipIdx - 1 else skipIdx
          let lo := if parts.getLast? = some ([] : List Char)
                    then parts.length - skipIdx - 2 else parts.length - skipIdx - 1
          (if parts.head? = some ([] : List Char) then hi = 0 else true)
          && (if parts.getLast? = some ([] : List Char) then lo = 0 else true)
          && (hi + lo + 1 ≤ 8)
          && (parts.take hi).all hextetOk
          && (parts.drop (parts.length - lo)).all hextetOk
        else
          parts.length = 8 && (!(parts.head? = some ([] : List Char)))
            && (!(parts.getLast? = some ([] : List Char))) && parts.all hextetOk

/-- Valid IPv6 address text per CPython `ipaddress.IPv6Address`, including
an optional `%zone` suffix (`_split_scope_id`: the part after the first `%`
must be nonempty and contain no further `%`). -/
def isIPv6Str (host : List Char) : Bool :=
  let addr := host.takeWhile (fun c => c ≠ '%')
  let rest := host.drop (addr.length)
  (match rest with
   | [] => true
   | _ :: zone => (!zone.isEmpty) && !(zone.contains '%'))
  && (!addr.isEmpty) && ipv6CoreOk addr

/-- IPvFuture bracketed-host text after the leading `v`, per the CPython
pattern `v[a-fA-F0-9]+\..+`: one or more hexadecimal digits, a dot, and at
least one further character. -/
def ipvFutureOk (rest : List Char) : Bool :=
  let hexs := rest.takeWhile isHexDigitAscii
  let rst := rest.drop hexs.length
  (!hexs.isEmpty) && rst.head? = some '.' && 1 < rst.length

/-- The bracketed host CPython extracts from a netloc containing brackets:
`netloc.partition('[')[2].partition(']')[0]`. -/
def bracketedHostOf (nl : List Char) : List Char :=
  (((nl.dropWhile (fun c => c ≠ '[')).drop 1).takeWhile (fun c => c ≠ ']'))

/-- CPython `urllib.parse._check_bracketed_host`: a bracketed host starting
with `v` must match the IPvFuture pattern; any other bracketed host must be
a valid IPv6 address (a valid IPv4 address, or anything else, raises
`ValueError`). -/
def checkBracketedHost (host : List Char) : Except String Unit :=
  match host with
  | 'v' :: rest =>
    if ipvFutureOk rest then Except.ok ()
    else Except.error "IPvFuture address is invalid"
  | _ =>
    if isIPv4Str host then Except.error "An IPv4 address cannot be in brackets"
    else if isIPv6Str host then Except.ok ()
    else Except.error (host.asString ++ " does not appear to be an IPv4 or IPv6 address")

/-- The `ValueError` checks CPython `urlsplit` performs on the URL text: a
netloc with an unmatched square bracket raises `Invalid IPv6 URL`; a netloc
with a bracket pair has its bracketed host validated by
`_check_bracketed_host` (present in current CPython maintenance releases). -/
def urlsplitCheck (l : List Char) : Except String Unit :=
  if ((netlocOf (preprocessUrl l)).contains '[' && !((netlocOf (preprocessUrl l)).contains ']'))
      || ((netlocOf (preprocessUrl l)).contains ']' && !((netlocOf (preprocessUrl l)).contains '[')) then
    Except.error "Invalid IPv6 URL"
  else if (netlocOf (preprocessUrl l)).contains '[' && (netlocOf (preprocessUrl l)).contains ']' then
    checkBracketedHost (bracketedHostOf (netlocOf (preprocessUrl l)))
  else Except.ok ()

/-- Characters after the last `'/'` of a character list (the POSIX basename,
also CPython `s.split('/')[-1]`). -/
def lastSlashSeg (l : List Char) : List Char :=
  (l.reverse.takeWhile (fun c => c ≠ '/')).reverse

/-- Extension part of CPython `os.path.splitext`, applied to the basename:
the suffix starting at the last dot, except that a basename whose every
character before that dot is itself a dot (e.g. `.bashrc`) has no extension. -/
def splitextExt (b : List Char) : List Char :=
  let afterRev := b.reverse.takeWhile (fun c => c ≠ '.')
  if afterRev.length = b.length then []
  else if (b.reverse.drop (afterRev.length + 1)).any (fun c => c ≠ '.') then
    '.' :: afterRev.reverse
  else []

/-- Source `get_extension_from_url` (lines 16-22): the lowercased
`os.path.splitext` extension of `urlparse(image_url).path`.  A pure function
of the URL text: no network access is modelled because the source performs
none. -/
def get_extension_from_url (image_url : String) : String :=
  ((splitextExt (lastSlashSeg (urlPathCL image_url.data))).map asciiLower).asString

/-- Equality of `Except` values is decidable when it is for both
components (used to evaluate the checked parser on concrete URLs). -/
instance {ε α : Type} [DecidableEq ε] [DecidableEq α] : DecidableEq (Except ε α) := fun a b =>
  match a, b with
  | Except.ok x, Except.ok y =>
    if h : x = y then Decidable.isTrue (by rw [h])
    else Decidable.isFalse (by intro hc; cases hc; exact h rfl)
  | Except.error x, Except.error y =>
    if h : x = y then Decidable.isTrue (by rw [h])
    else Decidable.isFalse (by intro hc; cases hc; exact h rfl)
  | Except.ok _, Except.error _ => Decidable.isFalse (by intro hc; cases hc)
  | Except.error _, Except.ok _ => Decidable.isFalse (by intro hc; cases hc)

/-- Filesystem state: association list of regular files (path, bytes — bytes
as `List Nat`) and a list of existing directories.  Only the operations the
source performs are provided. -/
structure FS where
  files : List (String × List Nat)
  dirs : List String
deriving DecidableEq

/-- Content of the file at `p`, when one exists (`open(p, 'rb')` view). -/
def FS.lookupFile (fs : FS) (p : String) : Option (List Nat) :=
  (fs.files.find? (fun kv => kv.1 == p)).map (fun kv => kv.2)

/-- Model of `os.path.exists(p)` for the target paths of the source, which
are regular-file paths. -/
def FS.existsFile (fs : FS) (p : String) : Bool :=
  (fs.lookupFile p).isSome

/-- Model of writing `b` to the file at `p` (create or truncate-and-write). -/
def FS.writeFile (fs : FS) (p : String) (b : List Nat) : FS :=
  { fs with files := (p, b) :: fs.files.filter (fun kv => kv.1 != p) }

/-- Model of `os.remove(p)`. -/
def FS.removeFile (fs : FS) (p : String) : FS :=
  { fs with files := fs.files.filter (fun kv => kv.1 != p) }

/-- Model of `os.makedirs(d, exist_ok=True)`: records the directory; never
touches regular files. -/
def FS.mkdirs (fs : FS) (d : String) : FS :=
  { fs with dirs := d :: fs.dirs }

/-- HTTP response oracle for one `requests.get` call: status success flag (is
`raise_for_status` silent?), the message `raise_for_status` would raise,
`r.headers.get('content-type')`, the chunk sequence `iter_content` yields,
and an optional index at which `iter_content` raises a transport fault
instead of yielding the next item. -/
structure Response where
  okStatus : Bool
  statusMsg : String
  contentType : Option String
  chunks : List (List Nat)
  streamFailAfter : Option Nat
deriving DecidableEq

/-- Environment oracle for one invocation: the result of `requests.get`
(`Except.error` models a raised `requests.RequestException`), whether
`open(image_path, 'wb')` raises, an optional index of a failing `f.write`
call, and whether `os.remove` raises during cleanup. -/
structure Env where
  net : Except String Response
  openFails : Bool
  writeFailAt : Option Nat
  removeFails : Bool

/-- Record of one outbound `requests.get` call with the arguments the source
passes: URL, `stream=`, `timeout=`, and the `headers=` keyword argument
(`none` when the call does not pass one). -/
structure GetCall where
  url : String
  stream : Bool
  timeout : Nat
  headersArg : Option (List (String × String))
deriving DecidableEq

/-- Python exceptions the embedded operation can let escape to its caller:
the `FileExistsError` of line 38, the `ValueError` that `urlparse` can raise
on line 30, and the `OSError` that `os.makedirs` can raise on line 34 — all
three sit before the `try` block. -/
inductive PyError where
  | fileExistsError (msg : String)
  | valueError (msg : String)
  | osError (msg : String)
deriving DecidableEq

/-- Result signal of one invocation: the returned path, or `None` together
with the printed failure message, or an uncaught exception. -/
inductive Outcome where
  | ok (path : String)
  | failed (msg : String)
  | raised (e : PyError)
deriving DecidableEq

/-- Observable result of one invocation of `download_image_stream`: the
outcome, the final filesystem, the issued GET calls, the target path used for
the existence check (line 37), and the final value of `image_path`. -/
structure RunResult where
  outcome : Outcome
  fs : FS
  netCalls : List GetCall
  checkedPath : String
  finalPath : String
deriving DecidableEq

/-- Header dict built on line 41 of the source
(`headers = {'User-Agent': 'python-requests/1.0'}`).  The source never passes
it to `requests.get` on line 44 (dead code); the request is sent with the
session's default headers instead. -/
def uaHeaders : List (String × String) :=
  [("User-Agent", "python-requests/1.0")]

/-- Fixed identifying `User-Agent` value the requests library's session
attaches to every request issued without a `headers=` argument
(`python-requests/<version>` — a constant of the installed library, modelled
here at release 2.31.0). -/
def requestsDefaultUA : String := "python-requests/2.31.0"

/-- The `User-Agent` value a GET call carries on the wire: the value of that
key in the `headers=` argument when one was passed with it, otherwise the
session default `requestsDefaultUA`. -/
def GetCall.userAgent (c : GetCall) : String :=
  match c.headersArg with
  | some hs =>
    (((hs.find? (fun kv => kv.1 == "User-Agent")).map (fun kv => kv.2)).getD requestsDefaultUA)
  | none => requestsDefaultUA

/-- Model message of the `OSError` that `os.makedirs` can raise on line 34
(destination existing as a regular file, permission fault). -/
def mkdirsErrMsg : String := "I/O error creating the destination directory"

/-- Message of the fault raised on line 51 when `content_type` is `None` and
`.startswith` is called on it. -/
def attrErrMsg : String :=
  "AttributeError: NoneType object has no attribute startswith"

/-- Model message of a transport fault raised by `iter_content` mid-stream. -/
def streamErrMsg : String := "connection error during streaming"

/-- Model message of an `OSError` raised by `f.write`. -/
def writeErrMsg : String := "I/O error during write"

/-- Model message of an `OSError` raised by `open(image_path, 'wb')`. -/
def openErrMsg : String := "I/O error opening file"

/-- CPython `os.path.join(a, b)` on POSIX for the two-argument uses of the
source: an absolute second component replaces the first, otherwise the two
are joined with a single separator. -/
def pathJoin (a b : String) : String :=
  if b.data.head? = some '/' then b
  else if a = "" then b
  else if a.data.getLast? = some '/' then a ++ b
  else a ++ "/" ++ b

/-- Target path built on line 36 of the source:
`os.path.join(folder, f'{safe_name}.{ext}')` — note the literal dot of the
f-string in front of `ext`, which itself already starts with a dot (or is
empty). -/
def targetPath0 (image_url name folder : String) : String :=
  pathJoin folder (safe_filename name ++ "." ++ get_extension_from_url image_url)

/-- Recomputed path of line 53: `os.path.join(folder, f'{safe_name}{guessed}')`
with `guessed = '.' + content_type.split('/')[-1].lower()`. -/
def guessedPath (folder safe_name ct : String) : String :=
  pathJoin folder (safe_name ++ "." ++ (((lastSlashSeg ct.data).map asciiLower).asString))

/-- Streaming loop of lines 57-58: iterate `iter_content`, writing each
non-empty chunk and skipping empty ones.  `i` counts the chunks the iterator
has yielded (a stream fault at index `i` fires instead of the `i`-th yield),
`w` counts the performed writes, `acc` is the data written so far.  Returns
the loop status together with the bytes in the (closed) file. -/
def streamWrite (sfa wfa : Option Nat) :
    List (List Nat) → Nat → Nat → List Nat → Except String Unit × List Nat
  | chunks, i, w, acc =>
    if sfa = some i then (Except.error streamErrMsg, acc)
    else
      match chunks with
      | [] => (Except.ok (), acc)
      | c :: rest =>
        if c = [] then streamWrite sfa wfa rest (i + 1) w acc
        else if wfa = some w then (Except.error writeErrMsg, acc)
        else streamWrite sfa wfa rest (i + 1) (w + 1) (acc ++ c)

/-- Failure report of lines 63-80: print
`f'Failed to download {safe_name} from {image_url}: {e}'` and return `None`. -/
def failMsg (safe_name image_url emsg : String) : String :=
  "Failed to download " ++ safe_name ++ " from " ++ image_url ++ ": " ++ emsg

/-- Exception-handler body shared by the two `except` clauses (lines 63-80):
report the failure, then, if a file exists at the current `image_path`, try
to `os.remove` it, swallowing any error of the removal itself. -/
def cleanupReturn (fs : FS) (calls : List GetCall) (checked path : String)
    (safe_name image_url emsg : String) (removeFails : Bool) : RunResult :=
  { outcome := Outcome.failed (failMsg safe_name image_url emsg),
    fs := if fs.existsFile path then
            (if removeFails then fs else fs.removeFile path)
          else fs,
    netCalls := calls, checkedPath := checked, finalPath := path }

/-- Write phase of lines 56-58 together with its surrounding error handling:
open the (possibly recomputed) `image_path`, stream the chunks into it, and
on any fault fall into the handlers of lines 63-80. -/
def writeToFile (env : Env) (fs : FS) (calls : List GetCall) (checked path : String)
    (r : Response) (safe_name image_url : String) : RunResult :=
  if env.openFails then
    cleanupReturn fs calls checked path safe_name image_url openErrMsg env.removeFails
  else
    match streamWrite r.streamFailAfter env.writeFailAt r.chunks 0 0 [] with
    | (Except.ok _, content) =>
      { outcome := Outcome.ok path, fs := fs.writeFile path content,
        netCalls := calls, checkedPath := checked, finalPath := path }
    | (Except.error emsg, content) =>
      cleanupReturn (fs.writeFile path content) calls checked path
        safe_name image_url emsg env.removeFails

/-- Source `download_image_stream` (lines 25-80), one invocation as a pure
function of the request, the initial filesystem and the environment oracle.
Mirrors the source line by line: extension from URL (30), sanitized name (32),
`os.makedirs` (34), target path with the f-string dot (36), existence check
raising `FileExistsError` before the `try` block (37-38), single streaming
GET without the `headers=` argument (44), `raise_for_status` (46),
`content_type` lookup (48), deferred extension resolution guarded by
`not ext` (51-53) — calling `.startswith` on a missing content type raises —
chunked write (56-58), and the two identical exception handlers (63-80). -/
def download_image_stream (env : Env) (fs0 : FS) (image_url : String) (name : String)
    (folder : String := "images") (timeout : Nat := 10) : RunResult :=
  if (fs0.mkdirs folder).existsFile (targetPath0 image_url name folder) then
    { outcome := Outcome.raised (PyError.fileExistsError
        ("File " ++ safe_filename name ++ " already exists")),
      fs := fs0.mkdirs folder, netCalls := [],
      checkedPath := targetPath0 image_url name folder,
      finalPath := targetPath0 image_url name folder }
  else
    match env.net with
    | Except.error emsg =>
      cleanupReturn (fs0.mkdirs folder) [GetCall.mk image_url true timeout none]
        (targetPath0 image_url name folder) (targetPath0 image_url name folder)
        (safe_filename name) image_url emsg env.removeFails
    | Except.ok r =>
      if r.okStatus = false then
        cleanupReturn (fs0.mkdirs folder) [GetCall.mk image_url true timeout none]
          (targetPath0 image_url name folder) (targetPath0 image_url name folder)
          (safe_filename name) image_url r.statusMsg env.removeFails
      else if get_extension_from_url image_url = "" then
        match r.contentType with
        | none =>
          cleanupReturn (fs0.mkdirs folder) [GetCall.mk image_url true timeout none]
            (targetPath0 image_url name folder) (targetPath0 image_url name folder)
            (safe_filename name) image_url attrErrMsg env.removeFails
        | some ct =>
          if List.isPrefixOf "image/".data ct.data then
            writeToFile env (fs0.mkdirs folder) [GetCall.mk image_url true timeout none]
              (targetPath0 image_url name folder)
              (guessedPath folder (safe_filename name) ct) r (safe_filename name) image_url
          else
            writeToFile env (fs0.mkdirs folder) [GetCall.mk image_url true timeout none]
              (targetPath0 image_url name folder)
              (targetPath0 image_url name folder) r (safe_filename name) image_url
      else
        writeToFile env (fs0.mkdirs folder) [GetCall.mk image_url true timeout none]
          (targetPath0 image_url name folder)
          (targetPath0 image_url name folder) r (safe_filename name) image_url

/-- Source `download_image_stream` including its two fallible pre-`try`
library calls: `get_extension_from_url` (line 30) can raise `ValueError`
from `urlparse` (see `urlsplitCheck`), and `os.makedirs` (line 34) can raise
`OSError` (oracle flag `mkdirsFails`).  Both raises happen before any target
path is computed, any existence check, and the `try` block, so they
propagate raw to the caller with the filesystem untouched and no GET issued;
when both calls succeed the run is `download_image_stream`.  The path fields
of the two raise outcomes are empty: no `image_path` was ever computed. -/
def download_image_stream_checked (env : Env) (mkdirsFails : Bool) (fs0 : FS)
    (image_url : String) (name : String) (folder : String := "images")
    (timeout : Nat := 10) : RunResult :=
  match urlsplitCheck image_url.data with
  | Except.error m =>
    { outcome := Outcome.raised (PyError.valueError m), fs := fs0, netCalls := [],
      checkedPath := "", finalPath := "" }
  | Except.ok _ =>
    if mkdirsFails then
      { outcome := Outcome.raised (PyError.osError mkdirsErrMsg), fs := fs0, netCalls := [],
        checkedPath := "", finalPath := "" }
    else
      download_image_stream env fs0 image_url name folder timeout

/-- Removing a path really removes it: no entry with that key survives the
filter underlying `FS.removeFile`. -/
lemma find?_filter_bne_eq_none (p : String) (l : List (String × List Nat)) :
    (l.filter (fun kv => kv.1 != p)).find? (fun kv => kv.1 == p) = none := by
  induction l with
  | nil => rfl
  | cons kv rest ih =>
    by_cases h : kv.1 = p
    · simp [List.filter_cons, h, ih]
    · simp [List.filter_cons, h, List.find?_cons, ih]

/-- After `FS.removeFile fs p`, the path `p` does not exist. -/
lemma existsFile_removeFile (fs : FS) (p : String) :
    (fs.removeFile p).existsFile p = false := by
  unfold FS.removeFile FS.existsFile FS.lookupFile
  simp [find?_filter_bne_eq_none]

/-- Directory creation does not change which files exist. -/
lemma existsFile_mkdirs (fs : FS) (d p : String) :
    (fs.mkdirs d).existsFile p = fs.existsFile p := rfl

/-- An exception-handler exit with a working `os.remove` leaves no file at the
final target path. -/
lemma cleanup_absent (fs : FS) (calls : List GetCall) (checked path sn iu emsg : String) :
    (cleanupReturn fs calls checked path sn iu emsg false).fs.existsFile
      (cleanupReturn fs calls checked path sn iu emsg false).finalPath = false := by
  unfold cleanupReturn
  by_cases h : fs.existsFile path
  · simp [h, existsFile_removeFile]
  · simp only [Bool.not_eq_true] at h
    simp [h]

/-- Every invocation of the embedded downloader ends in exactly one of three
shapes: the pre-`try` `FileExistsError` raise (only when the checked target
path already exists), a successful return, or an exception-handler exit. -/
lemma download_shape (env : Env) (fs0 : FS) (u n f : String) (t : Nat) :
    (fs0.existsFile (targetPath0 u n f) = true ∧
      download_image_stream env fs0 u n f t =
        { outcome := Outcome.raised (PyError.fileExistsError
            ("File " ++ safe_filename n ++ " already exists")),
          fs := fs0.mkdirs f, netCalls := [],
          checkedPath := targetPath0 u n f, finalPath := targetPath0 u n f }) ∨
    (fs0.existsFile (targetPath0 u n f) = false ∧
      ∃ p, (download_image_stream env fs0 u n f t).outcome = Outcome.ok p) ∨
    (fs0.existsFile (targetPath0 u n f) = false ∧
      ∃ fsX p emsg, download_image_stream env fs0 u n f t =
        cleanupReturn fsX [GetCall.mk u true t none] (targetPath0 u n f) p
          (safe_filename n) u emsg env.removeFails) := by
  unfold download_image_stream writeToFile
  split
  · rename_i hex
    rw [existsFile_mkdirs] at hex
    exact Or.inl ⟨hex, rfl⟩
  · rename_i hnex
    rw [existsFile_mkdirs, Bool.not_eq_true] at hnex
    (repeat' split) <;>
      first
        | exact Or.inr (Or.inl ⟨hnex, _, rfl⟩)
        | exact Or.inr (Or.inr ⟨hnex, _, _, _, rfl⟩)

/-- The outcome (description and result signal) of an invocation never
depends on whether the cleanup removal works: `os.remove` faults are
swallowed and the original report survives. -/
lemma outcome_removeFails_independent (net : Except String Response) (op : Bool)
    (wf : Option Nat) (b c : Bool) (fs0 : FS) (u n f : String) (t : Nat) :
    (download_image_stream ⟨net, op, wf, b⟩ fs0 u n f t).outcome =
    (download_image_stream ⟨net, op, wf, c⟩ fs0 u n f t).outcome := by
  unfold download_image_stream writeToFile
  dsimp only
  (repeat' split) <;> rfl

/-- With no stream fault and no write fault, the chunk loop terminates
normally and the file holds the previously written bytes followed by the
concatenation of all chunks (empty chunks are skipped, which leaves the
concatenation unchanged). -/
lemma streamWrite_no_fault (chunks : List (List Nat)) :
    ∀ (i w : Nat) (acc : List Nat),
      streamWrite none none chunks i w acc = (Except.ok (), acc ++ chunks.flatten) := by
  induction chunks with
  | nil =>
    intro i w acc
    unfold streamWrite
    simp
  | cons c rest ih =>
    intro i w acc
    unfold streamWrite
    by_cases hc : c = []
    · simp [hc, ih]
    · simp [hc, ih, List.append_assoc]

/-- Reading back the file just written returns exactly the written bytes. -/
lemma lookupFile_writeFile (fs : FS) (p : String) (b : List Nat) :
    (fs.writeFile p b).lookupFile p = some b := by
  unfold FS.writeFile FS.lookupFile
  simp [List.find?_cons]

/-- Every run that passes the existence check issues exactly the one GET
call of line 44: the URL, `stream=True`, the caller's timeout, and no
`headers=` argument. -/
lemma download_netCalls_of_not_exists (env : Env) (fs0 : FS) (u n f : String) (t : Nat)
    (h : fs0.existsFile (targetPath0 u n f) = false) :
    (download_image_stream env fs0 u n f t).netCalls = [GetCall.mk u true t none] := by
  unfold download_image_stream writeToFile
  rw [existsFile_mkdirs, h]
  rw [if_neg Bool.false_ne_true]
  (repeat' split) <;> rfl

/-- When both pre-`try` library calls succeed, the checked run is the plain
run. -/
lemma checked_eq_plain (env : Env) (fs0 : FS) (u n f : String) (t : Nat)
    (hurl : urlsplitCheck u.data = Except.ok ()) :
    download_image_stream_checked env false fs0 u n f t
      = download_image_stream env fs0 u n f t := by
  unfold download_image_stream_checked
  rw [hurl]
  rfl

/-- Sanitization always yields a character of the safe set. -/
lemma isSafeChar_sanitizeChar (c : Char) : isSafeChar (sanitizeChar c) = true := by
  unfold sanitizeChar
  by_cases h : isSafeChar c = true
  · simp [h]
  · rw [if_neg (by simpa using h)]
    decide

/-- Every character of a sanitized file name lies in the safe set. -/
lemma mem_safe_filename_safe (s : String) (c : Char) (hc : c ∈ (safe_filename s).data) :
    isSafeChar c = true := by
  have hdata : (safe_filename s).data = (pyPathName s.data).map sanitizeChar := rfl
  rw [hdata] at hc
  rcases List.mem_map.mp hc with ⟨a, _, rfl⟩
  exact isSafeChar_sanitizeChar a

/-- C7: for every input string `safe_filename` totally returns a string whose
characters all lie in `[A-Za-z0-9._-]` (stated with the executable character
predicate `isSafeChar` and the executable `List.all` / `List.contains`, so no
path separator can occur); the empty string maps to the empty string, and the
traversal example `../../etc/passwd` maps to `passwd`, which contains no
slash. -/
theorem C7_sanitizer_total_and_safe :
    (∀ s : String, ((safe_filename s).data.all isSafeChar) = true) ∧
    (∀ s : String, ((safe_filename s).data.contains '/') = false) ∧
    safe_filename "" = "" ∧
    safe_filename "../../etc/passwd" = "passwd" := by
  refine ⟨?_, ?_, by decide, by decide⟩
  · intro s
    rw [List.all_eq_true]
    intro c hc
    exact mem_safe_filename_safe s c hc
  · intro s
    by_contra h
    rw [Bool.not_eq_false] at h
    rcases List.contains_iff_exists_mem_beq.mp h with ⟨a, ha, hbeq⟩
    have heqa : a = '/' := by
      have : ('/' : Char) = a := by simpa using hbeq
      exact this.symm
    subst heqa
    have := mem_safe_filename_safe s '/' ha
    exact absurd this (by decide)

/-- C1: evaluation at the failing input of the claim's own example — desired
name `pic`, URL path ending in `.jpg` — shows that the path checked for
existence and written to is `images/pic..jpg` (the f-string of line 36 puts
a literal dot in front of the extension, which already carries its leading
dot), not the claimed `images/pic.jpg`. -/
theorem C1_target_path_double_dot :
    (download_image_stream ⟨Except.ok ⟨true, "", none, [[7]], none⟩, false, none, false⟩
      ⟨[], []⟩ "http://x.com/a/pic.jpg" "pic" "images" 10).checkedPath = "images/pic..jpg" ∧
    (download_image_stream ⟨Except.ok ⟨true, "", none, [[7]], none⟩, false, none, false⟩
      ⟨[], []⟩ "http://x.com/a/pic.jpg" "pic" "images" 10).finalPath = "images/pic..jpg" ∧
    (download_image_stream ⟨Except.ok ⟨true, "", none, [[7]], none⟩, false, none, false⟩
      ⟨[], []⟩ "http://x.com/a/pic.jpg" "pic" "images" 10).outcome
      = Outcome.ok "images/pic..jpg" ∧
    ("images/pic..jpg" : String) ≠ "images/pic.jpg" := by
  decide

/-- C2: for every input and environment, whenever the operation returns its
failure outcome (the `None` return with the printed report — all of which
arise after the GET was initiated), then (a) if the cleanup removal works, no
file exists at the final target path, and (b) a failing `os.remove` is
swallowed: flipping only the remove-fault flag leaves the reported failure
outcome unchanged. -/
theorem C2_failure_cleanup (env : Env) (fs0 : FS) (u n f : String) (t : Nat) (msg : String) :
    ((download_image_stream env fs0 u n f t).outcome = Outcome.failed msg →
      env.removeFails = false →
      (download_image_stream env fs0 u n f t).fs.existsFile
        (download_image_stream env fs0 u n f t).finalPath = false) ∧
    ((download_image_stream ⟨env.net, env.openFails, env.writeFailAt, false⟩ fs0 u n f t).outcome
        = Outcome.failed msg →
      (download_image_stream ⟨env.net, env.openFails, env.writeFailAt, true⟩ fs0 u n f t).outcome
        = Outcome.failed msg) := by
  constructor
  · intro hfail hrf
    rcases download_shape env fs0 u n f t with ⟨_, hr⟩ | ⟨_, p, hr⟩ | ⟨_, fsX, p, emsg, hr⟩
    · rw [hr] at hfail
      simp at hfail
    · rw [hr] at hfail
      simp at hfail
    · rw [hr, hrf]
      exact cleanup_absent _ _ _ _ _ _ _
  · intro hfail
    rw [outcome_removeFails_independent env.net env.openFails env.writeFailAt true false fs0 u n f t]
    exact hfail

/-- C2 witness: a network fault on a fresh filesystem leaves no file at the
final target path. -/
theorem C2_witness :
    (download_image_stream ⟨Except.error "connection refused", false, none, false⟩ ⟨[], []⟩
      "http://x.com/a/pic.jpg" "pic" "images" 10).fs.existsFile
      (download_image_stream ⟨Except.error "connection refused", false, none, false⟩ ⟨[], []⟩
        "http://x.com/a/pic.jpg" "pic" "images" 10).finalPath = false :=
  (C2_failure_cleanup ⟨Except.error "connection refused", false, none, false⟩ ⟨[], []⟩
    "http://x.com/a/pic.jpg" "pic" "images" 10
    (failMsg "pic" "http://x.com/a/pic.jpg" "connection refused")).1 (by decide) rfl

/-- C4: evaluation at the failing input — URL with no path extension and a
response that declares no content type at all — shows the download does not
complete with the extension-less target path as the claim states: line 51
calls `.startswith` on `None`, the resulting fault is caught by the generic
handler, and the operation reports failure with no file written. -/
theorem C4_no_content_type_fails :
    (download_image_stream ⟨Except.ok ⟨true, "", none, [[1, 2]], none⟩, false, none, false⟩
      ⟨[], []⟩ "http://x.com/pic" "pic" "images" 10).outcome
      = Outcome.failed (failMsg "pic" "http://x.com/pic" attrErrMsg) ∧
    (download_image_stream ⟨Except.ok ⟨true, "", none, [[1, 2]], none⟩, false, none, false⟩
      ⟨[], []⟩ "http://x.com/pic" "pic" "images" 10).fs.files = [] := by
  decide

/-- C5: when a file already exists at the resolved target path, the
operation fails immediately with the target-already-exists condition
(`FileExistsError` naming the sanitized file), performs zero network
requests, and leaves the set of files untouched. -/
theorem C5_target_exists_no_network (env : Env) (fs0 : FS) (u n f : String) (t : Nat)
    (h : fs0.existsFile (targetPath0 u n f) = true) :
    (download_image_stream env fs0 u n f t).outcome
      = Outcome.raised (PyError.fileExistsError
          ("File " ++ safe_filename n ++ " already exists")) ∧
    (download_image_stream env fs0 u n f t).netCalls = [] ∧
    (download_image_stream env fs0 u n f t).fs.files = fs0.files := by
  rcases download_shape env fs0 u n f t with ⟨_, hr⟩ | ⟨hnex, _⟩ | ⟨hnex, _⟩
  · rw [hr]
    exact ⟨rfl, rfl, rfl⟩
  · rw [h] at hnex
    simp at hnex
  · rw [h] at hnex
    simp at hnex

/-- C5 witness: with the target file present, no GET call is issued. -/
theorem C5_witness :
    (download_image_stream ⟨Except.error "never sent", false, none, false⟩
      ⟨[("images/pic..jpg", [1])], []⟩ "http://x.com/a/pic.jpg" "pic" "images" 10).netCalls
      = [] :=
  (C5_target_exists_no_network ⟨Except.error "never sent", false, none, false⟩
    ⟨[("images/pic..jpg", [1])], []⟩ "http://x.com/a/pic.jpg" "pic" "images" 10 (by decide)).2.1

/-- C6: evaluation at the failing input shows the operation deleting a file
it did not create.  A file pre-exists at `images/pic.png`; the URL has no
extension, so the existence check inspects `images/pic.` only; deferred
resolution from `Content-Type: image/png` then recomputes the write path to
`images/pic.png`, the open truncates the pre-existing file, a mid-stream
fault fires, and cleanup removes it — after the failure the pre-existing
file is gone. -/
theorem C6_deletes_preexisting_file :
    FS.existsFile ⟨[("images/pic.png", [9, 9])], ["images"]⟩ "images/pic.png" = true ∧
    (download_image_stream
      ⟨Except.ok ⟨true, "", some "image/png", [[1]], some 0⟩, false, none, false⟩
      ⟨[("images/pic.png", [9, 9])], ["images"]⟩ "http://x.com/pic" "pic" "images" 10).fs.existsFile
      "images/pic.png" = false ∧
    (download_image_stream
      ⟨Except.ok ⟨true, "", some "image/png", [[1]], some 0⟩, false, none, false⟩
      ⟨[("images/pic.png", [9, 9])], ["images"]⟩ "http://x.com/pic" "pic" "images" 10).outcome
      = Outcome.failed (failMsg "pic" "http://x.com/pic" streamErrMsg) := by
  decide

/-- C9: every invocation that reaches the network step — the pre-`try`
prelude passed and the target did not exist — issues exactly one outbound
GET with streaming enabled and the caller-supplied timeout, and, being made
without a `headers=` argument, that request carries the session's fixed
identifying `User-Agent` string (`requestsDefaultUA`); the dict of line 41
(`uaHeaders`) is dead code and does not alter this. -/
theorem C9_single_get_fixed_user_agent (env : Env) (md : Bool) (fs0 : FS)
    (u n f : String) (t : Nat)
    (hurl : urlsplitCheck u.data = Except.ok ())
    (hmd : md = false)
    (hex : fs0.existsFile (targetPath0 u n f) = false) :
    (download_image_stream_checked env md fs0 u n f t).netCalls
      = [GetCall.mk u true t none] ∧
    ∀ c ∈ (download_image_stream_checked env md fs0 u n f t).netCalls,
      c.userAgent = requestsDefaultUA ∧ c.stream = true ∧ c.timeout = t := by
  subst hmd
  rw [checked_eq_plain env fs0 u n f t hurl]
  have hn := download_netCalls_of_not_exists env fs0 u n f t hex
  refine ⟨hn, ?_⟩
  intro c hc
  rw [hn] at hc
  have hceq := List.mem_singleton.mp hc
  subst hceq
  exact ⟨rfl, rfl, rfl⟩

/-- C9 witness: a concrete run reaching the network issues the single
streamed GET with the caller's timeout and no `headers=` argument. -/
theorem C9_witness :
    (download_image_stream_checked ⟨Except.ok ⟨true, "", none, [[7]], none⟩, false, none, false⟩
      false ⟨[], []⟩ "http://x.com/a/pic.jpg" "pic" "images" 7).netCalls
      = [GetCall.mk "http://x.com/a/pic.jpg" true 7 none] :=
  (C9_single_get_fixed_user_agent ⟨Except.ok ⟨true, "", none, [[7]], none⟩, false, none, false⟩
    false ⟨[], []⟩ "http://x.com/a/pic.jpg" "pic" "images" 7 (by decide) rfl (by decide)).1

/-- C10: for every chunk sequence (any boundaries, zero-length chunks
anywhere) delivered by a fault-free response to a fresh target with a URL
that carries an extension, the operation succeeds and the saved file's bytes
are exactly the concatenation of the chunks in order — empty chunks are
skipped without error and leave the content unchanged. -/
theorem C10_roundtrip_chunks (chunks : List (List Nat)) (sm : String) (ct : Option String)
    (fs0 : FS) (u n f : String) (t : Nat)
    (hext : ¬ get_extension_from_url u = "")
    (h : fs0.existsFile (targetPath0 u n f) = false) :
    (download_image_stream ⟨Except.ok ⟨true, sm, ct, chunks, none⟩, false, none, false⟩
      fs0 u n f t).outcome = Outcome.ok (targetPath0 u n f) ∧
    (download_image_stream ⟨Except.ok ⟨true, sm, ct, chunks, none⟩, false, none, false⟩
      fs0 u n f t).fs.lookupFile (targetPath0 u n f) = some chunks.flatten := by
  unfold download_image_stream writeToFile
  dsimp only
  rw [existsFile_mkdirs, h]
  rw [if_neg Bool.false_ne_true]
  rw [if_neg (by decide : ¬ (true = false))]
  rw [if_neg hext]
  rw [if_neg (by decide : ¬ (false = true))]
  rw [streamWrite_no_fault]
  dsimp only
  refine ⟨rfl, ?_⟩
  rw [List.nil_append]
  exact lookupFile_writeFile _ _ _

/-- C10 witness: chunks `[1,2,3]`, `[]`, `[4,5]` reassemble to
`[1,2,3,4,5]` in the saved file. -/
theorem C10_witness :
    (download_image_stream
      ⟨Except.ok ⟨true, "", none, [[1, 2, 3], [], [4, 5]], none⟩, false, none, false⟩
      ⟨[], []⟩ "http://x.com/a/pic.jpg" "pic" "images" 10).fs.lookupFile "images/pic..jpg"
      = some [1, 2, 3, 4, 5] := by
  have h := (C10_roundtrip_chunks [[1, 2, 3], [], [4, 5]] "" none ⟨[], []⟩
    "http://x.com/a/pic.jpg" "pic" "images" 10 (by decide) (by decide)).2
  rw [show targetPath0 "http://x.com/a/pic.jpg" "pic" "images" = "images/pic..jpg" from by decide] at h
  rw [show ([[1, 2, 3], [], [4, 5]] : List (List Nat)).flatten = [1, 2, 3, 4, 5] from by decide] at h
  exact h

end ImageDl
